import Mathlib

/-!
Verification of the auto-trade-simulator core against its specification.

The development shallowly embeds the indicator engine, signal aggregator,
position state machine, P&L calculator and the ingestion-side buffer/backoff
arithmetic of `src/components/TradeSimWeb.tsx` (and its near-duplicate
`src/unnamed/part_000`).  JavaScript numbers are modelled as rationals (ℚ);
JavaScript `null`/`undefined` results are modelled as `Option ℚ`; JavaScript
truthiness of a number (`x && ...`) is modelled explicitly (`none` and `0`
are falsy).
-/

namespace TradeSim

/-! ### Strategy constants (TradeSimWeb.tsx lines 22-35) -/

def RSI_PERIOD : ℕ := 14
def SMA_SHORT_PERIOD : ℕ := 5
def SMA_LONG_PERIOD : ℕ := 20
def MACD_FAST : ℕ := 12
def MACD_SLOW : ℕ := 26
def MACD_SIGNAL : ℕ := 9
def RSI_BUY_THRESHOLD : ℚ := 30
def VWAP_CONDITION : Bool := true
def TAKE_PROFIT_PCT : ℚ := 7/10
def STOP_LOSS_PCT : ℚ := -1/2
def CAPITAL_GAIN_TAX_RATE : ℚ := 22/100
def BROKER_COMMISSION_RATE : ℚ := 23/10000
def MAX_HOLD_TIME : ℕ := 90

/-! ### List helpers mirroring the JavaScript array operations -/

/-- JavaScript `l.slice(-n)` for `n > 0`: the last `min n l.length` elements. -/
def lastN (n : ℕ) (l : List ℚ) : List ℚ := l.drop (l.length - n)

/-- JavaScript `data.map((v, i) => (i === 0 ? 0 : v - data[i-1]))`. -/
def deltas (data : List ℚ) : List ℚ :=
  (List.range data.length).map fun i =>
    if i = 0 then 0 else data.getD i 0 - data.getD (i - 1) 0

/-- JavaScript truthiness of a nullable number: `null` and `0` are falsy. -/
def truthy : Option ℚ → Bool
  | none => false
  | some x => decide (x ≠ 0)

/-! ### Indicator engine (TradeSimWeb.tsx lines 101-144) -/

/-- `avgUp` of `calculate_rsi`: mean of the positive deltas over the trailing
`RSI_PERIOD` window. -/
def rsiAvgUp (data : List ℚ) : ℚ :=
  (lastN RSI_PERIOD ((deltas data).map fun d => if d > 0 then d else 0)).sum / RSI_PERIOD

/-- `avgDown` of `calculate_rsi`: mean of the absolute negative deltas over the
trailing `RSI_PERIOD` window. -/
def rsiAvgDown (data : List ℚ) : ℚ :=
  (lastN RSI_PERIOD ((deltas data).map fun d => if d < 0 then -d else 0)).sum / RSI_PERIOD

/-- `calculate_rsi` (TradeSimWeb.tsx lines 101-111). -/
def calculate_rsi (data : List ℚ) : Option ℚ :=
  if data.length < RSI_PERIOD + 1 then none
  else if rsiAvgDown data = 0 then some 100
  else some (100 - 100 / (1 + rsiAvgUp data / rsiAvgDown data))

/-- `calculate_sma` (TradeSimWeb.tsx lines 113-116). -/
def calculate_sma (data : List ℚ) (period : ℕ) : Option ℚ :=
  if data.length < period then none
  else some ((lastN period data).sum / (period : ℚ))

/-- Tail of the `reduce`-based EMA: `prev` is the previous EMA value. -/
def emaStep (k : ℚ) : ℚ → List ℚ → List ℚ
  | _, [] => []
  | prev, x :: xs => (x * k + prev * (1 - k)) :: emaStep k (x * k + prev * (1 - k)) xs

/-- The inner `ema` of `calculate_macd`: seed is the first element,
`ema[i] = cur*k + ema[i-1]*(1-k)` with `k = 2/(n+1)`. -/
def ema (arr : List ℚ) (n : ℕ) : List ℚ :=
  match arr with
  | [] => []
  | x :: xs => x :: emaStep ((2 : ℚ) / ((n : ℚ) + 1)) x xs

/-- `calculate_macd` (TradeSimWeb.tsx lines 118-133): returns the pair
`(macd.at(-1), signal.at(-1))`, both `null` when fewer than `MACD_SLOW`
points exist. -/
def calculate_macd (data : List ℚ) : Option ℚ × Option ℚ :=
  if data.length < MACD_SLOW then (none, none)
  else
    let fast := ema data MACD_FAST
    let slow := ema data MACD_SLOW
    let macdLine := List.zipWith (· - ·) fast slow
    let signalLine := ema (macdLine.drop (MACD_SLOW - 1)) MACD_SIGNAL
    (macdLine.getLast?, signalLine.getLast?)

/-- `calculate_vwap` (TradeSimWeb.tsx lines 135-144). -/
def calculate_vwap (p v : List ℚ) : Option ℚ :=
  if p.length < 2 ∨ v.length ≠ p.length then none
  else some ((List.zipWith (· * ·) p v).sum / v.sum)

/-- `calculate_net_profit` (TradeSimWeb.tsx lines 146-151). -/
def calculate_net_profit (entry exitPrice : ℚ) : ℚ :=
  let gross0 := (exitPrice - entry) / entry
  let gross1 := gross0 - BROKER_COMMISSION_RATE * 2
  let gross2 := if gross1 > 0 then gross1 * (1 - CAPITAL_GAIN_TAX_RATE) else gross1
  gross2 * 100

/-! ### Ingestion-side arithmetic (TradeSimWeb.tsx lines 64-86, 163-166) -/

/-- JavaScript `volume || 1` on a possibly-missing volume field. -/
def wsVolume : Option ℚ → ℚ
  | none => 1
  | some x => if x = 0 then 1 else x

/-- `prev => [...prev.slice(-99), x]`: append with FIFO eviction at 100. -/
def pushTick (l : List ℚ) (x : ℚ) : List ℚ := lastN 99 l ++ [x]

/-- The per-trade buffer update of `useFinnhubWS`'s `onTrade` callback
(TradeSimWeb.tsx lines 64-69 and 163-166). -/
def onTrade (prices volumes : List ℚ) (price : ℚ) (v : Option ℚ) :
    List ℚ × List ℚ :=
  (pushTick prices price, pushTick volumes (wsVolume v))

/-- `Math.min(30000, 1000 * 2 ** retryCount)` (TradeSimWeb.tsx line 81),
in milliseconds. -/
def reconnectDelay (retryCount : ℕ) : ℕ := min 30000 (1000 * 2 ^ retryCount)

/-! ### Signal aggregator and position state machine
(`simulate`, TradeSimWeb.tsx lines 169-202) -/

inductive EventKind where
  | buy
  | sell
deriving DecidableEq, Repr

/-- One entry of the event log: `{time, type, price, reason?}` for BUY and
`{time, type, price, profit}` for SELL. -/
structure Event where
  time : ℕ
  kind : EventKind
  price : ℚ
  reason : Option String
  profit : Option ℚ
deriving DecidableEq, Repr

/-- `rsi && rsi < RSI_BUY_THRESHOLD` at buffer index `i`
(TradeSimWeb.tsx line 184). -/
def condRsi (prices : List ℚ) (i : ℕ) : Bool :=
  truthy (calculate_rsi (prices.take (i + 1))) &&
    decide ((calculate_rsi (prices.take (i + 1))).getD 0 < RSI_BUY_THRESHOLD)

/-- `VWAP_CONDITION && vwap && p > vwap` at buffer index `i`
(TradeSimWeb.tsx line 185). -/
def condVwap (prices volumes : List ℚ) (i : ℕ) : Bool :=
  VWAP_CONDITION &&
    truthy (calculate_vwap (prices.take (i + 1)) (volumes.take (i + 1))) &&
    decide (prices.getD i 0 >
      (calculate_vwap (prices.take (i + 1)) (volumes.take (i + 1))).getD 0)

/-- `sma5 && sma20 && sma5 > sma20` at buffer index `i`
(TradeSimWeb.tsx line 186). -/
def condGolden (prices : List ℚ) (i : ℕ) : Bool :=
  truthy (calculate_sma (prices.take (i + 1)) SMA_SHORT_PERIOD) &&
    truthy (calculate_sma (prices.take (i + 1)) SMA_LONG_PERIOD) &&
    decide ((calculate_sma (prices.take (i + 1)) SMA_SHORT_PERIOD).getD 0 >
      (calculate_sma (prices.take (i + 1)) SMA_LONG_PERIOD).getD 0)

/-- `macd && signal && macd > signal` at buffer index `i`
(TradeSimWeb.tsx line 187). -/
def condMacd (prices : List ℚ) (i : ℕ) : Bool :=
  truthy (calculate_macd (prices.take (i + 1))).1 &&
    truthy (calculate_macd (prices.take (i + 1))).2 &&
    decide ((calculate_macd (prices.take (i + 1))).1.getD 0 >
      (calculate_macd (prices.take (i + 1))).2.getD 0)

/-- The `reasons` array built at index `i` (TradeSimWeb.tsx lines 183-187). -/
def reasonsAt (prices volumes : List ℚ) (i : ℕ) : List String :=
  (if condRsi prices i then ["RSI<30"] else []) ++
  (if condVwap prices volumes i then ["VWAP 돌파"] else []) ++
  (if condGolden prices i then ["골든크로스"] else []) ++
  (if condMacd prices i then ["MACD 상향 돌파"] else [])

/-- Mutable loop state of `simulate`: `holding`, `entry`, `entryIdx`,
`newLogs`. -/
structure SimState where
  holding : Bool
  entry : ℚ
  entryIdx : ℕ
  logs : List Event
deriving DecidableEq, Repr

/-- One iteration of the `for` loop of `simulate`
(TradeSimWeb.tsx lines 175-200). -/
def simStep (prices volumes : List ℚ) (s : SimState) (i : ℕ) : SimState :=
  let p := prices.getD i 0
  let reasons := reasonsAt prices volumes i
  if s.holding = false ∧ reasons.length = 4 then
    { holding := true, entry := p, entryIdx := i,
      logs := s.logs ++ [{ time := i, kind := .buy, price := p,
                           reason := some (String.intercalate ", " reasons),
                           profit := none }] }
  else if s.holding then
    let net := calculate_net_profit s.entry p
    if net ≥ TAKE_PROFIT_PCT ∨ net ≤ STOP_LOSS_PCT ∨
        (i : ℤ) - (s.entryIdx : ℤ) ≥ (MAX_HOLD_TIME : ℤ) then
      { s with holding := false,
               logs := s.logs ++ [{ time := i, kind := .sell, price := p,
                                    reason := none, profit := some net }] }
    else s
  else s

/-- Loop state after the first `n` iterations of `simulate`. -/
def simStateAt (prices volumes : List ℚ) (n : ℕ) : SimState :=
  (List.range n).foldl (simStep prices volumes) ⟨false, 0, 0, []⟩

/-- The event log produced by a full `simulate` pass over the buffers. -/
def simulate (prices volumes : List ℚ) : List Event :=
  (simStateAt prices volumes prices.length).logs

/-- The spec's BUY-eligibility at index `i`: all four indicators are
non-absent and each satisfies its condition (RSI < 30, price > VWAP,
sma_short > sma_long, macd > signal). -/
def buyReady (prices volumes : List ℚ) (i : ℕ) : Bool :=
  ((calculate_rsi (prices.take (i + 1))).isSome &&
    decide ((calculate_rsi (prices.take (i + 1))).getD 0 < RSI_BUY_THRESHOLD)) &&
  ((calculate_vwap (prices.take (i + 1)) (volumes.take (i + 1))).isSome &&
    decide (prices.getD i 0 >
      (calculate_vwap (prices.take (i + 1)) (volumes.take (i + 1))).getD 0)) &&
  ((calculate_sma (prices.take (i + 1)) SMA_SHORT_PERIOD).isSome &&
    (calculate_sma (prices.take (i + 1)) SMA_LONG_PERIOD).isSome &&
    decide ((calculate_sma (prices.take (i + 1)) SMA_SHORT_PERIOD).getD 0 >
      (calculate_sma (prices.take (i + 1)) SMA_LONG_PERIOD).getD 0)) &&
  ((calculate_macd (prices.take (i + 1))).1.isSome &&
    (calculate_macd (prices.take (i + 1))).2.isSome &&
    decide ((calculate_macd (prices.take (i + 1))).1.getD 0 >
      (calculate_macd (prices.take (i + 1))).2.getD 0))

/-- The code's BUY-eligibility at index `i`: all four reason conditions,
with JavaScript truthiness (a `0` indicator value is falsy). -/
def buyReadyCode (prices volumes : List ℚ) (i : ℕ) : Bool :=
  condRsi prices i && condVwap prices volumes i &&
    condGolden prices i && condMacd prices i

end TradeSim

/-! ### The near-duplicate implementation in `src/unnamed/part_000`
(lines 77-159), transcribed independently for the equivalence claim. -/

namespace Part000

open TradeSim (RSI_PERIOD SMA_SHORT_PERIOD SMA_LONG_PERIOD MACD_FAST MACD_SLOW
  MACD_SIGNAL RSI_BUY_THRESHOLD VWAP_CONDITION TAKE_PROFIT_PCT STOP_LOSS_PCT
  CAPITAL_GAIN_TAX_RATE BROKER_COMMISSION_RATE MAX_HOLD_TIME
  lastN deltas truthy EventKind Event SimState)

/-- `calculate_rsi` of part_000 (lines 77-87). -/
def calculate_rsi (data : List ℚ) : Option ℚ :=
  if data.length < RSI_PERIOD + 1 then none
  else
    let up := (deltas data).map fun d => if d > 0 then d else 0
    let down := (deltas data).map fun d => if d < 0 then -d else 0
    let avgUp := (lastN RSI_PERIOD up).sum / RSI_PERIOD
    let avgDown := (lastN RSI_PERIOD down).sum / RSI_PERIOD
    if avgDown = 0 then some 100
    else some (100 - 100 / (1 + avgUp / avgDown))

/-- `calculate_sma` of part_000 (lines 89-92). -/
def calculate_sma (data : List ℚ) (period : ℕ) : Option ℚ :=
  if data.length < period then none
  else some ((lastN period data).sum / (period : ℚ))

/-- `calculate_macd` of part_000 (lines 94-109). -/
def calculate_macd (data : List ℚ) : Option ℚ × Option ℚ :=
  if data.length < MACD_SLOW then (none, none)
  else
    let fast := TradeSim.ema data MACD_FAST
    let slow := TradeSim.ema data MACD_SLOW
    let macdLine := List.zipWith (· - ·) fast slow
    let signalLine := TradeSim.ema (macdLine.drop (MACD_SLOW - 1)) MACD_SIGNAL
    (macdLine.getLast?, signalLine.getLast?)

/-- `calculate_vwap` of part_000 (lines 111-119). -/
def calculate_vwap (p v : List ℚ) : Option ℚ :=
  if p.length < 2 ∨ v.length ≠ p.length then none
  else some ((List.zipWith (· * ·) p v).sum / v.sum)

/-- `calculate_net_profit` of part_000 (lines 121-126). -/
def calculate_net_profit (entry exitPrice : ℚ) : ℚ :=
  let gross0 := (exitPrice - entry) / entry
  let gross1 := gross0 - BROKER_COMMISSION_RATE * 2
  let gross2 := if gross1 > 0 then gross1 * (1 - CAPITAL_GAIN_TAX_RATE) else gross1
  gross2 * 100

/-- The `reasons` array of part_000's `simulate` (lines 139-143). -/
def reasonsAt (prices volumes : List ℚ) (i : ℕ) : List String :=
  (if truthy (calculate_rsi (prices.take (i + 1))) &&
      decide ((calculate_rsi (prices.take (i + 1))).getD 0 < RSI_BUY_THRESHOLD)
    then ["RSI<30"] else []) ++
  (if VWAP_CONDITION &&
      truthy (calculate_vwap (prices.take (i + 1)) (volumes.take (i + 1))) &&
      decide (prices.getD i 0 >
        (calculate_vwap (prices.take (i + 1)) (volumes.take (i + 1))).getD 0)
    then ["VWAP 돌파"] else []) ++
  (if truthy (calculate_sma (prices.take (i + 1)) SMA_SHORT_PERIOD) &&
      truthy (calculate_sma (prices.take (i + 1)) SMA_LONG_PERIOD) &&
      decide ((calculate_sma (prices.take (i + 1)) SMA_SHORT_PERIOD).getD 0 >
        (calculate_sma (prices.take (i + 1)) SMA_LONG_PERIOD).getD 0)
    then ["골든크로스"] else []) ++
  (if truthy (calculate_macd (prices.take (i + 1))).1 &&
      truthy (calculate_macd (prices.take (i + 1))).2 &&
      decide ((calculate_macd (prices.take (i + 1))).1.getD 0 >
        (calculate_macd (prices.take (i + 1))).2.getD 0)
    then ["MACD 상향 돌파"] else [])

/-- One iteration of part_000's `simulate` loop (lines 131-157): in the BUY
branch `entry`, `entryIdx`, `holding` are assigned before the push; in the
SELL branch the push precedes `holding = false`. -/
def simStep (prices volumes : List ℚ) (s : SimState) (i : ℕ) : SimState :=
  let p := prices.getD i 0
  let reasons := reasonsAt prices volumes i
  if s.holding = false ∧ reasons.length = 4 then
    { entry := p, entryIdx := i, holding := true,
      logs := s.logs ++ [{ time := i, kind := .buy, price := p,
                           reason := some (String.intercalate ", " reasons),
                           profit := none }] }
  else if s.holding then
    let net := calculate_net_profit s.entry p
    if net ≥ TAKE_PROFIT_PCT ∨ net ≤ STOP_LOSS_PCT ∨
        (i : ℤ) - (s.entryIdx : ℤ) ≥ (MAX_HOLD_TIME : ℤ) then
      { s with logs := s.logs ++ [{ time := i, kind := .sell, price := p,
                                    reason := none, profit := some net }],
               holding := false }
    else s
  else s

/-- Full `simulate` pass of part_000 (lines 128-159). -/
def simulate (prices volumes : List ℚ) : List Event :=
  ((List.range prices.length).foldl (simStep prices volumes)
    ⟨false, 0, 0, []⟩).logs

end Part000

namespace TradeSim

/-! ### Concrete inputs used by counterexamples and witnesses -/

/-- A 27-tick price buffer: a flat stretch, a deep negative dip, then a spike
back to 1 followed by a slow decline.  At index 26 the RSI window sees only
the declining deltas, so RSI is exactly 0. -/
def cexPrices : List ℚ :=
  List.replicate 7 100 ++ List.replicate 5 (-1000000) ++
    (List.range 15).map (fun j => 1 - (j : ℚ) / 1000)

def cexVolumes : List ℚ := List.replicate 27 1

/-- A 28-tick price buffer like `cexPrices` but with one small up-delta in
the RSI window (so RSI lands strictly between 0 and 30) and a final crash
tick; `simulate` emits a BUY at index 26 and a SELL at index 27 on it. -/
def buyPrices : List ℚ :=
  List.replicate 7 100 ++ List.replicate 5 (-1000000) ++
    [1, 999/1000, 499/500, 997/1000, 249/250, 1993/2000, 1991/2000, 1989/2000,
     1987/2000, 397/400, 1983/2000, 1981/2000, 1979/2000, 1977/2000, 79/80] ++
    [1/2]

def buyVolumes : List ℚ := List.replicate 28 1

/-- The kind sequence of a well-formed event log: BUY at even positions,
SELL at odd positions. -/
def kindPattern (n : ℕ) : List EventKind :=
  (List.range n).map fun k => if k % 2 = 0 then .buy else .sell

/-- Loop iteration `m` of `simulate` appends exactly the event `e`. -/
def stepAppends (prices volumes : List ℚ) (m : ℕ) (e : Event) : Prop :=
  (simStep prices volumes (simStateAt prices volumes m) m).logs =
    (simStateAt prices volumes m).logs ++ [e]

end TradeSim

namespace TradeSim

/-! ### Supporting lemmas -/

unseal Rat.add Rat.mul Rat.inv Rat.sub

lemma emaStep_length (k : ℚ) (prev : ℚ) (l : List ℚ) :
    (emaStep k prev l).length = l.length := by
  induction l generalizing prev with
  | nil => rfl
  | cons x xs ih => simp [emaStep, ih]

lemma ema_length (arr : List ℚ) (n : ℕ) : (ema arr n).length = arr.length := by
  cases arr with
  | nil => rfl
  | cons x xs => simp [ema, emaStep_length]

lemma ema_ne_nil {arr : List ℚ} (h : arr ≠ []) (n : ℕ) : ema arr n ≠ [] := by
  cases arr with
  | nil => exact absurd rfl h
  | cons x xs => simp [ema]

lemma rsiAvgUp_nonneg (data : List ℚ) : 0 ≤ rsiAvgUp data := by
  unfold rsiAvgUp
  apply div_nonneg _ (by norm_num)
  apply List.sum_nonneg
  intro x hx
  obtain ⟨d, -, rfl⟩ := List.mem_map.1 (List.mem_of_mem_drop hx)
  split_ifs with h
  · exact le_of_lt h
  · exact le_refl 0

lemma rsiAvgDown_nonneg (data : List ℚ) : 0 ≤ rsiAvgDown data := by
  unfold rsiAvgDown
  apply div_nonneg _ (by norm_num)
  apply List.sum_nonneg
  intro x hx
  obtain ⟨d, -, rfl⟩ := List.mem_map.1 (List.mem_of_mem_drop hx)
  split_ifs with h
  · linarith
  · exact le_refl 0

/-- The body of `calculate_net_profit` with the `let` chain flattened. -/
lemma calculate_net_profit_eq (entry exitPrice : ℚ) :
    calculate_net_profit entry exitPrice =
      (if (exitPrice - entry) / entry - BROKER_COMMISSION_RATE * 2 > 0
        then ((exitPrice - entry) / entry - BROKER_COMMISSION_RATE * 2) *
          (1 - CAPITAL_GAIN_TAX_RATE)
        else (exitPrice - entry) / entry - BROKER_COMMISSION_RATE * 2) * 100 :=
  rfl

/-! ### Claim theorems -/

set_option maxRecDepth 100000 in
/-- C2 counterexample: the claim asserts that `net_profit_pct(100, 100.7)` is
exactly `0.195`, but evaluating the stated order of operations gives
`(100.7 - 100)/100 - 0.0046 = 0.0024` (not `0.0025`), hence
`0.0024 * 0.78 * 100 = 0.1872`. -/
theorem C2_counterexample :
    calculate_net_profit 100 (1007/10) = 1872/10000 ∧
      ¬ calculate_net_profit 100 (1007/10) = 195/1000 := by
  constructor <;> decide

set_option maxRecDepth 100000 in
/-- C2 (amended): `net_profit_pct` follows the exact order: gross return,
minus round-trip commission `0.0023 × 2`, tax factor `1 - 0.22` applied only
when the post-commission gross is positive, times 100; but the worked
example `entry = 100, exit = 100.7` yields exactly `0.1872`, not `0.195`. -/
theorem C2_net_profit_order (entry exitPrice : ℚ) (h : 0 < entry) :
    calculate_net_profit entry exitPrice =
      (if (exitPrice - entry) / entry - 23/10000 * 2 > 0
        then ((exitPrice - entry) / entry - 23/10000 * 2) * (1 - 22/100)
        else (exitPrice - entry) / entry - 23/10000 * 2) * 100 ∧
    calculate_net_profit 100 (1007/10) = 1872/10000 := by
  refine ⟨rfl, by decide⟩

set_option maxRecDepth 100000 in
/-- Witness for C2 at `entry = 100`, `exit = 100.7`. -/
theorem C2_net_profit_order_witness :
    calculate_net_profit 100 (1007/10) =
      (if ((1007:ℚ)/10 - 100) / 100 - 23/10000 * 2 > 0
        then (((1007:ℚ)/10 - 100) / 100 - 23/10000 * 2) * (1 - 22/100)
        else ((1007:ℚ)/10 - 100) / 100 - 23/10000 * 2) * 100 ∧
    calculate_net_profit 100 (1007/10) = 1872/10000 :=
  C2_net_profit_order 100 (1007/10) (by norm_num)

/-- C4: for any price history of length at least `RSI_PERIOD + 1 = 15`,
`calculate_rsi` returns a value in `[0, 100]`; when the trailing average
loss is zero it returns exactly 100 and no division happens, and otherwise
the divisor `1 + avgGain/avgLoss` is nonzero (so the division
`100 / (1 + avgGain/avgLoss)` is never performed with a zero divisor). -/
theorem C4_rsi_bounds (data : List ℚ) (hlen : RSI_PERIOD + 1 ≤ data.length) :
    ∃ r, calculate_rsi data = some r ∧ 0 ≤ r ∧ r ≤ 100 ∧
      (rsiAvgDown data = 0 → r = 100) ∧
      (rsiAvgDown data ≠ 0 →
        r = 100 - 100 / (1 + rsiAvgUp data / rsiAvgDown data) ∧
        1 + rsiAvgUp data / rsiAvgDown data ≠ 0) := by
  have hnl : ¬ data.length < RSI_PERIOD + 1 := by omega
  by_cases h0 : rsiAvgDown data = 0
  · refine ⟨100, ?_, by norm_num, le_refl 100, fun _ => rfl, fun h => absurd h0 h⟩
    unfold calculate_rsi
    rw [if_neg hnl, if_pos h0]
  · have hU := rsiAvgUp_nonneg data
    have hD : 0 < rsiAvgDown data := lt_of_le_of_ne (rsiAvgDown_nonneg data) (Ne.symm h0)
    have hrs : 0 ≤ rsiAvgUp data / rsiAvgDown data := div_nonneg hU (le_of_lt hD)
    have h1 : (0:ℚ) < 1 + rsiAvgUp data / rsiAvgDown data := by linarith
    have hle : 100 / (1 + rsiAvgUp data / rsiAvgDown data) ≤ 100 :=
      div_le_self (by norm_num) (by linarith)
    have hpos : 0 < 100 / (1 + rsiAvgUp data / rsiAvgDown data) :=
      div_pos (by norm_num) h1
    refine ⟨100 - 100 / (1 + rsiAvgUp data / rsiAvgDown data), ?_, by linarith,
      by linarith, fun h => absurd h h0, fun _ => ⟨rfl, ne_of_gt h1⟩⟩
    unfold calculate_rsi
    rw [if_neg hnl, if_neg h0]

/-- Witness for C4 on a constant 15-sample history (average loss zero,
RSI saturates to 100). -/
theorem C4_rsi_bounds_witness :
    ∃ r, calculate_rsi (List.replicate 15 (1:ℚ)) = some r ∧ 0 ≤ r ∧ r ≤ 100 ∧
      (rsiAvgDown (List.replicate 15 (1:ℚ)) = 0 → r = 100) ∧
      (rsiAvgDown (List.replicate 15 (1:ℚ)) ≠ 0 →
        r = 100 - 100 / (1 + rsiAvgUp (List.replicate 15 (1:ℚ)) /
          rsiAvgDown (List.replicate 15 (1:ℚ))) ∧
        1 + rsiAvgUp (List.replicate 15 (1:ℚ)) /
          rsiAvgDown (List.replicate 15 (1:ℚ)) ≠ 0) :=
  C4_rsi_bounds (List.replicate 15 (1:ℚ)) (by decide)

set_option maxRecDepth 100000 in
/-- C5 counterexample: the claim asserts the recorded volume is never zero or
negative, but `volume || 1` passes a strictly negative source volume through
unchanged: a trade message with volume `-5` records `-5`. -/
theorem C5_counterexample :
    (onTrade [] [] 10 (some (-5))).2 = [-5] ∧ ((-5:ℚ) < 0) := by
  constructor <;> decide

/-- C5 (amended): an omitted or zero source volume is coerced to 1 and the
recorded volume is never zero; a nonzero source volume (including a negative
one) is recorded unchanged, so the recorded volume is strictly positive
whenever the source volume is omitted or nonnegative. -/
theorem C5_volume_coercion (prices volumes : List ℚ) (price : ℚ) (v : Option ℚ) :
    ∃ w, (onTrade prices volumes price v).2 = pushTick volumes w ∧
      w ≠ 0 ∧
      (v = none → w = 1) ∧
      (v = some 0 → w = 1) ∧
      (∀ x, v = some x → x ≠ 0 → w = x) ∧
      (v = none → 0 < w) ∧
      (∀ x, v = some x → 0 ≤ x → 0 < w) := by
  refine ⟨wsVolume v, rfl, ?_, ?_, ?_, ?_, ?_, ?_⟩
  · cases v with
    | none => norm_num [wsVolume]
    | some x =>
      by_cases hx : x = 0 <;> simp [wsVolume, hx]
  · intro h; subst h; rfl
  · intro h; subst h; simp [wsVolume]
  · intro x h hx; subst h; simp [wsVolume, hx]
  · intro h; subst h; norm_num [wsVolume]
  · intro x h hx; subst h
    by_cases h0 : x = 0
    · simp [wsVolume, h0]
    · simp only [wsVolume, if_neg h0]
      exact lt_of_le_of_ne hx (Ne.symm h0)

/-- Witness for C5 with a zero source volume: the recorded volume is 1. -/
theorem C5_volume_coercion_witness :
    ∃ w, (onTrade [] [] 10 (some 0)).2 = pushTick [] w ∧
      w ≠ 0 ∧
      (some (0:ℚ) = none → w = 1) ∧
      (some (0:ℚ) = some 0 → w = 1) ∧
      (∀ x, some (0:ℚ) = some x → x ≠ 0 → w = x) ∧
      (some (0:ℚ) = none → 0 < w) ∧
      (∀ x, some (0:ℚ) = some x → 0 ≤ x → 0 < w) :=
  C5_volume_coercion [] [] 10 (some 0)

set_option maxRecDepth 100000 in
/-- C6: the buffers hold at most 100 elements; appending to a full buffer of
100 evicts exactly the oldest element; and after appending 150 ticks to an
empty buffer the contents are exactly inputs 50..149 in order, so the length
is 100 and the oldest retained tick is input number 50. -/
theorem C6_buffer_fifo :
    (∀ (l : List ℚ) (x : ℚ), (pushTick l x).length ≤ 100) ∧
    (∀ (l : List ℚ) (x : ℚ), l.length = 100 → pushTick l x = l.tail ++ [x]) ∧
    ((List.range 150).map (fun n => (n : ℚ))).foldl pushTick [] =
      ((List.range 150).map (fun n => (n : ℚ))).drop 50 ∧
    (((List.range 150).map (fun n => (n : ℚ))).foldl pushTick []).length = 100 ∧
    (((List.range 150).map (fun n => (n : ℚ))).foldl pushTick []).head? =
      some 50 := by
  refine ⟨?_, ?_, by decide, by decide, by decide⟩
  · intro l x
    simp only [pushTick, lastN, List.length_append, List.length_drop,
      List.length_singleton]
    omega
  · intro l x h
    simp [pushTick, lastN, h, List.drop_one]

/-- Witness for C6 on a concrete full buffer. -/
theorem C6_buffer_fifo_witness :
    pushTick (List.replicate 100 (0:ℚ)) 5 =
      (List.replicate 100 (0:ℚ)).tail ++ [5] :=
  C6_buffer_fifo.2.1 (List.replicate 100 (0:ℚ)) 5 (by simp)

/-- C7: the reconnect delay is `min(30s, 1s × 2^retry_count)`; for
`retry_count` 0..5 the delays are exactly 1s, 2s, 4s, 8s, 16s, 30s, and the
delay never exceeds 30s. -/
theorem C7_backoff :
    (List.range 6).map reconnectDelay = [1000, 2000, 4000, 8000, 16000, 30000] ∧
    ∀ r : ℕ, reconnectDelay r ≤ 30000 :=
  ⟨by decide, fun _ => min_le_left _ _⟩

/-- C8: each indicator returns an absent value (never an error) exactly when
history is insufficient: `calculate_sma` is absent iff fewer than `period`
points, `calculate_rsi` iff fewer than 15, both components of
`calculate_macd` iff fewer than 26, and `calculate_vwap` iff fewer than 2
points or mismatched lengths. -/
theorem C8_absent_iff (data p v : List ℚ) (period : ℕ) :
    (calculate_sma data period = none ↔ data.length < period) ∧
    (calculate_rsi data = none ↔ data.length < RSI_PERIOD + 1) ∧
    ((calculate_macd data).1 = none ↔ data.length < MACD_SLOW) ∧
    ((calculate_macd data).2 = none ↔ data.length < MACD_SLOW) ∧
    (calculate_vwap p v = none ↔ p.length < 2 ∨ v.length ≠ p.length) := by
  have hmacd : ¬ data.length < MACD_SLOW →
      (calculate_macd data).1 ≠ none ∧ (calculate_macd data).2 ≠ none := by
    intro h
    have hlen : MACD_SLOW ≤ data.length := by omega
    have hne : data ≠ [] := by
      intro hnil
      rw [hnil] at hlen
      simp [MACD_SLOW] at hlen
    have hline : (List.zipWith (· - ·) (ema data MACD_FAST) (ema data MACD_SLOW)).length =
        data.length := by
      simp [List.length_zipWith, ema_length]
    have hline_ne : List.zipWith (· - ·) (ema data MACD_FAST) (ema data MACD_SLOW) ≠ [] := by
      intro hnil
      rw [← List.length_eq_zero, hline] at hnil
      simp [MACD_SLOW] at hlen
      omega
    have hdrop_ne : (List.zipWith (· - ·) (ema data MACD_FAST)
        (ema data MACD_SLOW)).drop (MACD_SLOW - 1) ≠ [] := by
      intro hnil
      rw [← List.length_eq_zero, List.length_drop, hline] at hnil
      simp [MACD_SLOW] at hlen hnil ⊢
      omega
    have hsig_ne := ema_ne_nil hdrop_ne MACD_SIGNAL
    unfold calculate_macd
    rw [if_neg h]
    constructor <;>
      simp [List.getLast?_eq_getLast_of_ne_nil hline_ne,
        List.getLast?_eq_getLast_of_ne_nil hsig_ne]
  refine ⟨?_, ?_, ?_, ?_, ?_⟩
  · unfold calculate_sma
    split_ifs with h <;> simp [h]
  · unfold calculate_rsi
    split_ifs with h h0 <;> simp [h]
  · constructor
    · intro hnone
      by_contra h
      exact (hmacd h).1 hnone
    · intro h
      unfold calculate_macd
      rw [if_pos h]
  · constructor
    · intro hnone
      by_contra h
      exact (hmacd h).2 hnone
    · intro h
      unfold calculate_macd
      rw [if_pos h]
  · unfold calculate_vwap
    split_ifs with h <;> simp [h]

/-- Witness for C8 on concrete histories. -/
theorem C8_absent_iff_witness :
    (calculate_sma [1, 2] 5 = none ↔ ([1, 2] : List ℚ).length < 5) ∧
    (calculate_rsi [1, 2] = none ↔ ([1, 2] : List ℚ).length < RSI_PERIOD + 1) ∧
    ((calculate_macd [1, 2]).1 = none ↔ ([1, 2] : List ℚ).length < MACD_SLOW) ∧
    ((calculate_macd [1, 2]).2 = none ↔ ([1, 2] : List ℚ).length < MACD_SLOW) ∧
    (calculate_vwap [1, 2] [3] = none ↔
      ([1, 2] : List ℚ).length < 2 ∨ ([3] : List ℚ).length ≠ ([1, 2] : List ℚ).length) :=
  C8_absent_iff [1, 2] [1, 2] [3] 5

/-- C9: for fixed `entry > 0`, `calculate_net_profit entry` is monotonically
increasing in the exit price. -/
theorem C9_monotone (entry x1 x2 : ℚ) (he : 0 < entry) (hx : x1 ≤ x2) :
    calculate_net_profit entry x1 ≤ calculate_net_profit entry x2 := by
  rw [calculate_net_profit_eq, calculate_net_profit_eq]
  have hg : (x1 - entry) / entry - BROKER_COMMISSION_RATE * 2 ≤
      (x2 - entry) / entry - BROKER_COMMISSION_RATE * 2 := by
    have hdiv : (x1 - entry) / entry ≤ (x2 - entry) / entry :=
      (div_le_div_iff_of_pos_right he).mpr (by linarith)
    linarith
  set g1 := (x1 - entry) / entry - BROKER_COMMISSION_RATE * 2 with hg1
  set g2 := (x2 - entry) / entry - BROKER_COMMISSION_RATE * 2 with hg2
  have htax : (0:ℚ) < 1 - CAPITAL_GAIN_TAX_RATE := by norm_num [CAPITAL_GAIN_TAX_RATE]
  by_cases h1 : g1 > 0
  · rw [if_pos h1, if_pos (lt_of_lt_of_le h1 hg)]
    have := mul_le_mul_of_nonneg_right hg (le_of_lt htax)
    nlinarith
  · rw [if_neg h1]
    by_cases h2 : g2 > 0
    · rw [if_pos h2]
      have hle1 : g1 ≤ 0 := le_of_not_lt h1
      nlinarith
    · rw [if_neg h2]
      nlinarith

/-- Witness for C9 at `entry = 100`, exits 100 and 101. -/
theorem C9_monotone_witness :
    calculate_net_profit 100 100 ≤ calculate_net_profit 100 101 :=
  C9_monotone 100 100 101 (by norm_num) (by norm_num)

/-! ### Simulation-loop lemmas -/

lemma simStateAt_succ (p v : List ℚ) (n : ℕ) :
    simStateAt p v (n + 1) = simStep p v (simStateAt p v n) n := by
  unfold simStateAt
  rw [List.range_succ, List.foldl_append]
  rfl

lemma simStep_logs (p v : List ℚ) (s : SimState) (i : ℕ) :
    (simStep p v s i).logs = s.logs ∨
    ∃ e : Event, (simStep p v s i).logs = s.logs ++ [e] ∧ e.time = i := by
  simp only [simStep]
  split_ifs with h1 h2 h3
  · exact Or.inr ⟨_, rfl, rfl⟩
  · exact Or.inr ⟨_, rfl, rfl⟩
  · exact Or.inl rfl
  · exact Or.inl rfl

lemma simStep_flat_four (p v : List ℚ) (s : SimState) (i : ℕ)
    (hflat : s.holding = false) (h4 : (reasonsAt p v i).length = 4) :
    simStep p v s i =
      { holding := true, entry := p.getD i 0, entryIdx := i,
        logs := s.logs ++ [{ time := i, kind := .buy, price := p.getD i 0,
                             reason := some (String.intercalate ", " (reasonsAt p v i)),
                             profit := none }] } := by
  simp only [simStep]
  rw [if_pos ⟨hflat, h4⟩]

lemma simStep_flat_not_four (p v : List ℚ) (s : SimState) (i : ℕ)
    (hflat : s.holding = false) (h4 : (reasonsAt p v i).length ≠ 4) :
    simStep p v s i = s := by
  simp only [simStep]
  rw [if_neg (by tauto), if_neg (by simp [hflat])]

lemma mem_simStateAt (p v : List ℚ) :
    ∀ (n : ℕ) (e : Event),
      e ∈ (simStateAt p v n).logs ↔ ∃ m, m < n ∧ stepAppends p v m e := by
  intro n
  induction n with
  | zero =>
    intro e
    simp [simStateAt]
  | succ n ih =>
    intro e
    rw [simStateAt_succ]
    rcases simStep_logs p v (simStateAt p v n) n with hsame | ⟨e', happ, ht⟩
    · rw [hsame]
      constructor
      · intro he
        obtain ⟨m, hm, hs⟩ := (ih e).1 he
        exact ⟨m, Nat.lt_succ_of_lt hm, hs⟩
      · rintro ⟨m, hm, hs⟩
        rcases Nat.lt_succ_iff_lt_or_eq.1 hm with hm' | rfl
        · exact (ih e).2 ⟨m, hm', hs⟩
        · unfold stepAppends at hs
          rw [hsame] at hs
          simp at hs
    · rw [happ]
      simp only [List.mem_append, List.mem_singleton]
      constructor
      · rintro (he | rfl)
        · obtain ⟨m, hm, hs⟩ := (ih e).1 he
          exact ⟨m, Nat.lt_succ_of_lt hm, hs⟩
        · exact ⟨n, Nat.lt_succ_self n, happ⟩
      · rintro ⟨m, hm, hs⟩
        rcases Nat.lt_succ_iff_lt_or_eq.1 hm with hm' | rfl
        · exact Or.inl ((ih e).2 ⟨m, hm', hs⟩)
        · right
          unfold stepAppends at hs
          rw [happ] at hs
          simpa using (List.append_cancel_left hs).symm

lemma stepAppends_time (p v : List ℚ) (m : ℕ) (e : Event)
    (h : stepAppends p v m e) : e.time = m := by
  rcases simStep_logs p v (simStateAt p v m) m with hsame | ⟨e', happ, ht⟩
  · unfold stepAppends at h
    rw [hsame] at h
    simp at h
  · unfold stepAppends at h
    rw [happ] at h
    obtain rfl : e' = e := by simpa using List.append_cancel_left h
    exact ht

lemma reasons_length_eq_four (p v : List ℚ) (i : ℕ) :
    (reasonsAt p v i).length = 4 ↔ buyReadyCode p v i = true := by
  unfold reasonsAt buyReadyCode
  cases condRsi p i <;> cases condVwap p v i <;> cases condGolden p i <;>
    cases condMacd p i <;> simp

lemma flat_buy_step (p v : List ℚ) (i : ℕ)
    (hflat : (simStateAt p v i).holding = false) :
    (∃ e, stepAppends p v i e ∧ e.kind = .buy) ↔ buyReadyCode p v i = true := by
  rw [← reasons_length_eq_four]
  constructor
  · rintro ⟨e, he, -⟩
    by_contra h4
    have hsame := simStep_flat_not_four p v (simStateAt p v i) i hflat h4
    unfold stepAppends at he
    rw [hsame] at he
    simp at he
  · intro h4
    refine ⟨{ time := i, kind := .buy, price := p.getD i 0,
              reason := some (String.intercalate ", " (reasonsAt p v i)),
              profit := none }, ?_, rfl⟩
    unfold stepAppends
    rw [simStep_flat_four p v (simStateAt p v i) i hflat h4]

/-! ### C1: BUY signal aggregation -/

set_option maxRecDepth 1000000 in
/-- C1 counterexample: at index 26 of `cexPrices`/`cexVolumes` the position is
Flat and all four indicators are non-absent with all four spec conditions
satisfied (RSI is exactly 0, which is `< 30`), yet the event log of the whole
pass is empty — no BUY is emitted, because the JavaScript truthiness guard
`rsi && rsi < 30` treats the indicator value 0 as falsy. -/
theorem C1_counterexample :
    (simStateAt cexPrices cexVolumes 26).holding = false ∧
    buyReady cexPrices cexVolumes 26 = true ∧
    simulate cexPrices cexVolumes = [] := by
  refine ⟨by decide, by decide, by decide⟩

/-- C1 (amended): at every index `i` at which the position is Flat, a BUY
event is emitted at `i` iff all four indicators are truthy — non-absent AND
nonzero, per JavaScript truthiness — and each satisfies its condition; in
particular an indicator value of exactly 0 (e.g. RSI = 0) suppresses its
reason and no BUY fires even though the indicator is non-absent and
satisfies its comparison. -/
theorem C1_buy_iff (prices volumes : List ℚ) (i : ℕ)
    (hi : i < prices.length)
    (hflat : (simStateAt prices volumes i).holding = false) :
    (∃ e ∈ simulate prices volumes, e.time = i ∧ e.kind = .buy) ↔
      buyReadyCode prices volumes i = true := by
  rw [← flat_buy_step prices volumes i hflat]
  unfold simulate
  constructor
  · rintro ⟨e, hmem, ht, hk⟩
    obtain ⟨m, hm, hs⟩ := (mem_simStateAt prices volumes prices.length e).1 hmem
    obtain rfl : m = i := by rw [← stepAppends_time prices volumes m e hs, ht]
    exact ⟨e, hs, hk⟩
  · rintro ⟨e, hs, hk⟩
    exact ⟨e, (mem_simStateAt prices volumes prices.length e).2 ⟨i, hi, hs⟩,
      stepAppends_time prices volumes i e hs, hk⟩

set_option maxRecDepth 1000000 in
/-- Witness for C1 on `buyPrices` at index 26, where a BUY does fire. -/
theorem C1_buy_iff_witness :
    ((simStateAt buyPrices buyVolumes 26).holding = false) ∧
    ((∃ e ∈ simulate buyPrices buyVolumes, e.time = 26 ∧ e.kind = .buy) ↔
      buyReadyCode buyPrices buyVolumes 26 = true) :=
  ⟨by decide, C1_buy_iff buyPrices buyVolumes 26 (by decide) (by decide)⟩

/-! ### C3: position state machine invariants -/

lemma kindPattern_succ (n : ℕ) :
    kindPattern (n + 1) =
      kindPattern n ++ [if n % 2 = 0 then EventKind.buy else EventKind.sell] := by
  simp [kindPattern, List.range_succ]

lemma simInv (p v : List ℚ) : ∀ n : ℕ,
    List.Chain' (fun a b => a.time < b.time) (simStateAt p v n).logs ∧
    (simStateAt p v n).logs.map Event.kind =
      kindPattern (simStateAt p v n).logs.length ∧
    (∀ e ∈ (simStateAt p v n).logs, e.time < n) ∧
    ((simStateAt p v n).holding = true →
      (simStateAt p v n).logs.length % 2 = 1) ∧
    ((simStateAt p v n).holding = false →
      (simStateAt p v n).logs.length % 2 = 0) := by
  intro n
  induction n with
  | zero =>
    refine ⟨?_, ?_, ?_, ?_, ?_⟩ <;> simp [simStateAt, kindPattern]
  | succ n ih =>
    obtain ⟨ihc, ihk, iht, ihodd, iheven⟩ := ih
    rw [simStateAt_succ]
    have hlast : ∀ x ∈ (simStateAt p v n).logs.getLast?, x.time < n := by
      intro x hx
      obtain ⟨hne, rfl⟩ := List.mem_getLast?_eq_getLast hx
      exact iht _ (List.getLast_mem hne)
    simp only [simStep]
    split_ifs with h1 h2 h3
    · -- BUY appended
      dsimp only
      refine ⟨?_, ?_, ?_, ?_, ?_⟩
      · exact List.Chain'.append ihc (List.chain'_singleton _)
          (fun x hx y hy => by
            simp only [List.head?_cons, Option.mem_def, Option.some.injEq] at hy
            subst hy
            exact hlast x hx)
      · simp only [List.map_append, List.length_append, List.map_cons,
          List.map_nil, List.length_cons, List.length_nil]
        rw [ihk, kindPattern_succ, if_pos (iheven h1.1)]
      · intro e he
        rcases List.mem_append.1 he with he | he
        · exact Nat.lt_succ_of_lt (iht e he)
        · simp only [List.mem_singleton] at he
          subst he
          exact Nat.lt_succ_self n
      · intro _
        simp only [List.length_append, List.length_singleton]
        have := iheven h1.1
        omega
      · simp
    · -- SELL appended
      dsimp only
      refine ⟨?_, ?_, ?_, ?_, ?_⟩
      · exact List.Chain'.append ihc (List.chain'_singleton _)
          (fun x hx y hy => by
            simp only [List.head?_cons, Option.mem_def, Option.some.injEq] at hy
            subst hy
            exact hlast x hx)
      · simp only [List.map_append, List.length_append, List.map_cons,
          List.map_nil, List.length_cons, List.length_nil]
        have hodd := ihodd h2
        rw [ihk, kindPattern_succ, if_neg (by omega)]
      · intro e he
        rcases List.mem_append.1 he with he | he
        · exact Nat.lt_succ_of_lt (iht e he)
        · simp only [List.mem_singleton] at he
          subst he
          exact Nat.lt_succ_self n
      · simp
      · intro _
        simp only [List.length_append, List.length_singleton]
        have := ihodd h2
        omega
    · -- holding, no exit condition: state unchanged
      exact ⟨ihc, ihk, fun e he => Nat.lt_succ_of_lt (iht e he), ihodd, iheven⟩
    · -- flat, no buy: state unchanged
      exact ⟨ihc, ihk, fun e he => Nat.lt_succ_of_lt (iht e he), ihodd, iheven⟩

/-- C3: on every simulation pass the event log alternates BUY, SELL, BUY, …
(so at most one position is ever open, and no BUY is emitted while holding),
and the event times are strictly increasing along the log (so every SELL's
`time_index` is strictly greater than that of the BUY that opened its
position). -/
theorem C3_position_invariants (prices volumes : List ℚ) :
    List.Chain' (fun a b => a.time < b.time) (simulate prices volumes) ∧
    (simulate prices volumes).map Event.kind =
      kindPattern (simulate prices volumes).length := by
  obtain ⟨hc, hk, -, -, -⟩ := simInv prices volumes prices.length
  exact ⟨hc, hk⟩

/-! ### C10: equivalence of the two implementations -/

/-- C10: the near-duplicate implementations in `src/unnamed/part_000` and
`src/components/TradeSimWeb.tsx` are equivalent: each of the four indicator
functions, the net-profit calculator and the full `simulate` pass produce
identical results on every input. -/
theorem C10_equivalence :
    (∀ data : List ℚ, Part000.calculate_rsi data = calculate_rsi data) ∧
    (∀ (data : List ℚ) (period : ℕ),
      Part000.calculate_sma data period = calculate_sma data period) ∧
    (∀ data : List ℚ, Part000.calculate_macd data = calculate_macd data) ∧
    (∀ p v : List ℚ, Part000.calculate_vwap p v = calculate_vwap p v) ∧
    (∀ e x : ℚ, Part000.calculate_net_profit e x = calculate_net_profit e x) ∧
    (∀ prices volumes : List ℚ,
      Part000.simulate prices volumes = simulate prices volumes) :=
  ⟨fun _ => rfl, fun _ _ => rfl, fun _ => rfl, fun _ _ => rfl, fun _ _ => rfl,
    fun _ _ => rfl⟩

end TradeSim

